import Mathlib

/-!
Verification of the godis key-value store (samziz/godis).

The development shallowly embeds the Go sources:
  * `src/src/database/database.go` : the `MapDatabase` store with `Get`,
    `Set` and `NewMapDatabase`;
  * `src/src/handlers.go`          : `handleGet` and `handleSet`;
  * `src/src/types.go`             : the `Request` and `Response` types;
  * the main file (the `listen` function and its request-handling closure).

Go maps from strings to strings are embedded as association lists whose
lookup and assignment mirror Go map semantics; the zero-valued (nil) map is
`none`, because reading a nil map yields the zero value while assigning to a
nil map panics.  Fallible or possibly-panicking code returns `Option`;
a Go `error` value is `Option String` (the message carried by `errors.New`,
with `none` for a nil error).  What `json.Marshal` actually emits for a
`Response` — in particular that it renders a non-nil `error` interface
value as an empty JSON object, losing the message — is embedded separately
as `marshalResponse` over a small JSON value type.
-/

namespace Godis

/-- Go map read `v, ok := m[key]` over the association-list embedding:
returns `some v` when the key is present, `none` when absent. -/
def mapLookup : List (String × String) → String → Option String
  | [], _ => none
  | (k, v) :: rest, key => if k = key then some v else mapLookup rest key

/-- Go map assignment `m[key] = value` over the association-list embedding:
overwrites the value in place when the key is present, otherwise adds a
fresh entry. -/
def mapInsert : List (String × String) → String → String → List (String × String)
  | [], key, value => [(key, value)]
  | (k, v) :: rest, key, value =>
      if k = key then (key, value) :: rest else (k, v) :: mapInsert rest key value

/-- The `MapDatabase` struct of database.go.  The `hashtable` field is the
Go map; `none` is the nil map that a zero-valued `MapDatabase{}` carries.
(The `hashtableMutex` field has no sequential semantics; the locking
discipline of the methods is embedded separately below as
`acquiresHashtableMutex`.) -/
structure MapDatabase where
  hashtable : Option (List (String × String))
deriving DecidableEq

/-- The message of the error built by `errors.New` in `MapDatabase.Get`. -/
def missingKeyError : String := "this value doesn\x27t exist"

/-- `func (db MapDatabase) Get(key string) (string, error)`: looks the key
up in the hashtable; when absent (`!ok`, which includes the nil-map case,
since reading a nil Go map yields the zero value) returns the zero string
and `errors.New("this value doesn\x27t exist")`, otherwise the value and a
nil error.  The receiver is taken by value and the body performs no
assignment, so the store is untouched. -/
def MapDatabase.Get (db : MapDatabase) (key : String) : String × Option String :=
  match db.hashtable.bind (fun m => mapLookup m key) with
  | none => ("", some missingKeyError)
  | some v => (v, none)

/-- `func (db *MapDatabase) Set(key, value string) error`: locks the mutex,
assigns `db.hashtable[key] = value`, unlocks, and returns a nil error.
Assigning to a nil map panics in Go, embedded as the `none` result;
otherwise the result is the updated store paired with the returned error. -/
def MapDatabase.Set (db : MapDatabase) (key value : String) :
    Option (MapDatabase × Option String) :=
  match db.hashtable with
  | none => none
  | some m => some ({ hashtable := some (mapInsert m key value) }, none)

/-- `func NewMapDatabase() MapDatabase`: returns a `MapDatabase` whose
hashtable is an actual (empty) map rather than the nil zero value. -/
def NewMapDatabase : MapDatabase := { hashtable := some [] }

/-- The key is absent from the store: the map read finds nothing (also the
case for a nil map). -/
def keyAbsent (db : MapDatabase) (key : String) : Bool :=
  (db.hashtable.bind (fun m => mapLookup m key)).isNone

/-- The `Request` struct of types.go: the operation name, the key, and the
value (empty when the op is a GET). -/
structure Request where
  Op : String
  Key : String
  Value : String
deriving DecidableEq

/-- The `Response` struct of types.go, before marshalling.  `Error` holds
the error value placed in the struct by the handler, embedded as its
message (`none` for a nil error); `Value` is the plain string field.  How
these fields are rendered on the wire — including that `json.Marshal`
loses the message of a non-nil error — is embedded as `marshalResponse`
below. -/
structure Response where
  Error : Option String
  Status : Nat
  Value : String
deriving DecidableEq

/-- A JSON value, for embedding what `json.Marshal` emits.  An object is
its ordered field list, since Go marshals struct fields in declaration
order. -/
inductive Json where
  | obj (fields : List (String × Json))
  | str (s : String)
  | num (n : Nat)

/-- `json.Marshal` applied to the `Response` struct of types.go, whose Go
fields are `Error error` (tag `,omitempty`), `Status uint` and
`Value string` (tag `,omitempty`).  A nil `Error` is dropped by
`omitempty`; a NON-nil error — the `*errorString` built by `errors.New`,
a pointer to a struct with one unexported field and no MarshalJSON
method — is not dropped but is rendered as the empty object, so its
message is lost on the wire.  `Status` is always emitted; `Value` is
dropped exactly when it is the zero string. -/
def marshalResponse (rsp : Response) : Json :=
  Json.obj
    ((match rsp.Error with
      | none => []
      | some _ => [("Error", Json.obj [])]) ++
      [("Status", Json.num rsp.Status)] ++
      (if rsp.Value = "" then [] else [("Value", Json.str rsp.Value)]))

/-- What a handler writes to the `http.ResponseWriter`: either a marshalled
JSON `Response` (written with the default 200 HTTP header), or a plain
write of a status header followed by a raw body. -/
inductive HttpOut where
  | json (rsp : Response)
  | plain (status : Nat) (body : String)
deriving DecidableEq

/-- `handleGet` of handlers.go: calls `db.Get(reqBody.Key)`; on a non-nil
error builds `Response{Error: err, Status: 500}` (the `Value` field keeps
its zero value), otherwise `Response{Status: 200, Value: value}`; then
marshals and writes it.  Marshalling this struct cannot fail, so the
freak-out branch is dead and the handler always writes the JSON response.
The store is never modified. -/
def handleGet (reqBody : Request) (db : MapDatabase) : Response :=
  match db.Get reqBody.Key with
  | (_, some e) => { Error := some e, Status := 500, Value := "" }
  | (value, none) => { Error := none, Status := 200, Value := value }

/-- `handleSet` of handlers.go: calls `db.Set(reqBody.Key, reqBody.Value)`;
on a non-nil error writes a plain 500 with the raw error text; otherwise
writes the JSON of `Response{Status: 200}` (zero-valued `Error` and
`Value`).  A panic inside `Set` (nil map) propagates, embedded as `none`. -/
def handleSet (reqBody : Request) (db : MapDatabase) :
    Option (MapDatabase × HttpOut) :=
  match db.Set reqBody.Key reqBody.Value with
  | none => none
  | some (db2, some e) => some (db2, .plain 500 e)
  | some (db2, none) =>
      some (db2, .json { Error := none, Status := 200, Value := "" })

/-- The request-handling closure registered by `listen` in the main file,
after the JSON body has been decoded into `reqBody`: switch on `reqBody.Op`,
calling `handleGet` for "GET" and `handleSet` for "SET"; on any other op
write a plain 500 whose body is `"Unrecognised op: "` followed by the op,
without touching the store.  The result pairs the store after the request
with what was written; `none` is a propagated panic. -/
def handleRequest (reqBody : Request) (db : MapDatabase) :
    Option (MapDatabase × HttpOut) :=
  match reqBody.Op with
  | "GET" => some (db, .json (handleGet reqBody db))
  | "SET" => handleSet reqBody db
  | _ => some (db, .plain 500 ("Unrecognised op: " ++ reqBody.Op))

/-- The two store operations, for stating the locking discipline. -/
inductive StoreOp where
  | get (key : String)
  | set (key value : String)
deriving DecidableEq

/-- Which store operations hold `hashtableMutex` around their access to the
hashtable, read off the method bodies in database.go: `Set` brackets its
assignment with `Lock()` and a deferred `Unlock()`; `Get` reads
`db.hashtable[key]` with no lock call at all. -/
def acquiresHashtableMutex : StoreOp → Bool
  | .get _ => false
  | .set _ _ => true

/-- Two operations on the same store have mutually excluded critical
sections exactly when both acquire the (unique) mutex: a mutex only
serialises the sections that take it. -/
def criticalSectionsExcluded (a b : StoreOp) : Bool :=
  acquiresHashtableMutex a && acquiresHashtableMutex b

/-! ### Lemmas about the map embedding -/

theorem mapLookup_mapInsert_self (m : List (String × String)) (k v : String) :
    mapLookup (mapInsert m k v) k = some v := by
  induction m with
  | nil => simp [mapInsert, mapLookup]
  | cons hd tl ih =>
      obtain ⟨k0, v0⟩ := hd
      by_cases hk : k0 = k
      · simp [mapInsert, hk, mapLookup]
      · simp [mapInsert, hk, mapLookup, ih]

theorem mapLookup_mapInsert_ne (m : List (String × String)) (k k2 v : String)
    (h : k ≠ k2) : mapLookup (mapInsert m k v) k2 = mapLookup m k2 := by
  induction m with
  | nil => simp [mapInsert, mapLookup, h]
  | cons hd tl ih =>
      obtain ⟨k0, v0⟩ := hd
      by_cases hk : k0 = k
      · subst hk; simp [mapInsert, mapLookup, h]
      · simp only [mapInsert, if_neg hk]
        by_cases hk2 : k0 = k2
        · simp [mapLookup, hk2]
        · simp [mapLookup, hk2, ih]

/-! ### The claims -/

/-- Claim C1: for every key k (including the empty string) and every value v
(including the empty string), performing Set(k, v) on the store and then
Get(k) returns the value v with no error.  Stated on any store whose `Set`
call completed (did not hit the nil-map panic). -/
theorem set_then_get_returns_value (db : MapDatabase) (k v : String)
    (db2 : MapDatabase) (e : Option String)
    (h : db.Set k v = some (db2, e)) : db2.Get k = (v, none) := by
  unfold MapDatabase.Set at h
  cases hdb : db.hashtable with
  | none => rw [hdb] at h; exact absurd h (by simp)
  | some m =>
      rw [hdb] at h
      simp only [Option.some.injEq, Prod.mk.injEq] at h
      obtain ⟨hdb2, _⟩ := h
      unfold MapDatabase.Get
      rw [← hdb2]
      simp [mapLookup_mapInsert_self]

/-- Witness for C1 at the empty key and empty value on a fresh store. -/
theorem set_then_get_returns_value_witness :
    ∃ db2, NewMapDatabase.Set "" "" = some (db2, none) ∧ db2.Get "" = ("", none) :=
  ⟨{ hashtable := some [("", "")] }, rfl,
    set_then_get_returns_value NewMapDatabase "" "" _ none rfl⟩

/-- Struct-level reading of the absent-key GET path: before marshalling,
`handleGet` builds the `Response` with status 500, the missing-key error
value and a zero `Value` field.  The handler clearly intends the message
to reach the client, but marshalling then loses it — see
`marshalResponse` and the C2 evaluation below. -/
theorem get_missing_key_struct (req : Request) (db : MapDatabase)
    (h : keyAbsent db req.Key = true) :
    handleGet req db =
      { Error := some missingKeyError, Status := 500, Value := "" } := by
  unfold keyAbsent at h
  rw [Option.isNone_iff_eq_none] at h
  unfold handleGet MapDatabase.Get
  rw [h]

/-- Claim C2 evaluation: on the GET request for the absent key "missing"
against a fresh store, the emitted (marshalled) response is the object
with an "Error" field that is the EMPTY object and a "Status" field of
500.  `json.Marshal` renders the non-nil error interface value as an
empty object because `*errorString` has no exported fields, so the
message "this value doesn\x27t exist" never appears in any emitted
response, contrary to the claim (the value field is indeed absent and the
status is indeed 500). -/
theorem get_missing_key_marshalled_error_is_empty_object :
    marshalResponse
        (handleGet { Op := "GET", Key := "missing", Value := "" }
          NewMapDatabase) =
      Json.obj [("Error", Json.obj []), ("Status", Json.num 500)] :=
  rfl

/-- Claim C3: Get(k) returns an error exactly when k is absent from the
mapping, and the error is always the single designated missing-key message
"this value doesn\x27t exist" — so it is raised solely for key absence and
is distinguishable from any other error text. -/
theorem get_error_iff_absent (db : MapDatabase) (k : String) :
    (db.Get k).2 = if keyAbsent db k then some missingKeyError else none := by
  unfold MapDatabase.Get keyAbsent
  cases db.hashtable.bind (fun m => mapLookup m k) <;> simp

/-- Claim C4 evaluation: the code does not mutually exclude a Set from a
concurrent Get.  `Set` brackets its map assignment with the mutex, but
`Get` reads the hashtable without any lock call, so its map read is not
serialised against any Set critical section. -/
theorem set_get_not_excluded :
    criticalSectionsExcluded (.set "k" "v") (.get "k") = false ∧
      acquiresHashtableMutex (.get "k") = false :=
  ⟨rfl, rfl⟩

/-- Claim C5: for every decoded request whose op is neither "GET" nor
"SET", the dispatcher leaves the store untouched (no store call) and writes
a plain 500 whose body contains the offending op string. -/
theorem unrecognised_op_response (req : Request) (db : MapDatabase)
    (h1 : req.Op ≠ "GET") (h2 : req.Op ≠ "SET") :
    handleRequest req db =
        some (db, .plain 500 ("Unrecognised op: " ++ req.Op)) ∧
      ∃ pre post, "Unrecognised op: " ++ req.Op = pre ++ req.Op ++ post := by
  refine ⟨?_, "Unrecognised op: ", "", by simp⟩
  unfold handleRequest
  split
  · simp_all
  · simp_all
  · rfl

/-- Witness for C5: the DELETE request from the spec walkthrough. -/
theorem unrecognised_op_response_witness :
    handleRequest { Op := "DELETE", Key := "foo", Value := "" } NewMapDatabase =
      some (NewMapDatabase, .plain 500 "Unrecognised op: DELETE") :=
  (unrecognised_op_response { Op := "DELETE", Key := "foo", Value := "" }
    NewMapDatabase (by decide) (by decide)).1

/-- Claim C6: whenever `Set` completes it returns a nil error (there are no
rejection conditions), and whenever `handleSet` completes it writes the
JSON response with status 200, no error and no value field. -/
theorem set_always_succeeds (db : MapDatabase) (k v : String) (req : Request) :
    (∀ db2 e, db.Set k v = some (db2, e) → e = none) ∧
      (∀ db2 out, handleSet req db = some (db2, out) →
        out = .json { Error := none, Status := 200, Value := "" }) := by
  constructor
  · intro db2 e h
    unfold MapDatabase.Set at h
    cases hdb : db.hashtable with
    | none => rw [hdb] at h; exact absurd h (by simp)
    | some m =>
        rw [hdb] at h
        simp only [Option.some.injEq, Prod.mk.injEq] at h
        exact h.2.symm
  · intro db2 out h
    unfold handleSet MapDatabase.Set at h
    cases hdb : db.hashtable with
    | none => rw [hdb] at h; exact absurd h (by simp)
    | some m =>
        rw [hdb] at h
        simp only [Option.some.injEq, Prod.mk.injEq] at h
        exact h.2.symm

/-- Witness for C6: a SET request on a fresh store. -/
theorem set_always_succeeds_witness :
    ∃ db2 out,
      handleSet { Op := "SET", Key := "a", Value := "b" } NewMapDatabase =
          some (db2, out) ∧
        out = .json { Error := none, Status := 200, Value := "" } :=
  ⟨{ hashtable := some [("a", "b")] },
    .json { Error := none, Status := 200, Value := "" }, rfl,
    (set_always_succeeds NewMapDatabase "a" "b"
        { Op := "SET", Key := "a", Value := "b" }).2 _ _ rfl⟩

/-- Claim C7: last write wins — after Set(k, v1) completes, Set(k, v2) also
completes and a subsequent Get(k) yields v2. -/
theorem last_write_wins (db : MapDatabase) (k v1 v2 : String)
    (db1 : MapDatabase) (e1 : Option String)
    (h : db.Set k v1 = some (db1, e1)) :
    ∃ db2 e2, db1.Set k v2 = some (db2, e2) ∧ db2.Get k = (v2, none) := by
  have h1 : ∃ m, db1.hashtable = some m := by
    unfold MapDatabase.Set at h
    cases hdb : db.hashtable with
    | none => rw [hdb] at h; exact absurd h (by simp)
    | some m =>
        rw [hdb] at h
        simp only [Option.some.injEq, Prod.mk.injEq] at h
        exact ⟨mapInsert m k v1, by rw [← h.1]⟩
  obtain ⟨m, hm⟩ := h1
  have h2 : db1.Set k v2 =
      some ({ hashtable := some (mapInsert m k v2) }, none) := by
    unfold MapDatabase.Set
    rw [hm]
  exact ⟨_, _, h2, set_then_get_returns_value db1 k v2 _ none h2⟩

/-- Witness for C7: two sequential sets of key "k" on a fresh store. -/
theorem last_write_wins_witness :
    ∃ db2 e2,
      MapDatabase.Set { hashtable := some [("k", "v1")] } "k" "v2" =
          some (db2, e2) ∧
        db2.Get "k" = ("v2", none) :=
  last_write_wins NewMapDatabase "k" "v1" "v2"
    { hashtable := some [("k", "v1")] } none rfl

/-- Claim C8: Get is a pure read — handling any GET request returns the
store unchanged, for present and absent keys alike (the error outcome never
affects the state).  `MapDatabase.Get` itself takes its receiver by value
and performs no assignment, so it is a pure function of the store here. -/
theorem get_is_pure (req : Request) (db : MapDatabase) (h : req.Op = "GET") :
    handleRequest req db = some (db, .json (handleGet req db)) := by
  unfold handleRequest
  rw [h]
  rfl

/-- Witness for C8: a GET for an absent key on a fresh store leaves the
store unchanged while producing the error response. -/
theorem get_is_pure_witness :
    handleRequest { Op := "GET", Key := "missing", Value := "" } NewMapDatabase =
      some (NewMapDatabase,
        .json (handleGet { Op := "GET", Key := "missing", Value := "" }
          NewMapDatabase)) :=
  get_is_pure { Op := "GET", Key := "missing", Value := "" } NewMapDatabase rfl

/-- Claim C9: `NewMapDatabase` returns a store with an actual (non-nil)
hashtable, and on any such store `Set` never hits the nil-map panic branch
and preserves the invariant (Get touches no state, so it preserves it
trivially). -/
theorem new_map_database_safe :
    NewMapDatabase.hashtable.isSome = true ∧
      ∀ db : MapDatabase, ∀ k v : String, db.hashtable.isSome = true →
        ∃ db2, db.Set k v = some (db2, none) ∧ db2.hashtable.isSome = true := by
  refine ⟨rfl, fun db k v h => ?_⟩
  unfold MapDatabase.Set
  cases hdb : db.hashtable with
  | none => rw [hdb] at h; exact absurd h (by simp)
  | some m => exact ⟨_, rfl, rfl⟩

/-- Witness for C9: a Set on the freshly constructed store completes
without panic and keeps the hashtable initialised. -/
theorem new_map_database_safe_witness :
    ∃ db2, NewMapDatabase.Set "x" "y" = some (db2, none) ∧
      db2.hashtable.isSome = true :=
  new_map_database_safe.2 NewMapDatabase "x" "y" rfl

/-- Claim C10: Set(k, v) leaves every other key association unchanged —
Get(k2) returns the same value-or-absence result before and after the Set,
for any k2 different from k. -/
theorem set_frames_other_keys (db : MapDatabase) (k k2 v : String)
    (db2 : MapDatabase) (e : Option String) (hne : k ≠ k2)
    (h : db.Set k v = some (db2, e)) : db2.Get k2 = db.Get k2 := by
  unfold MapDatabase.Set at h
  cases hdb : db.hashtable with
  | none => rw [hdb] at h; exact absurd h (by simp)
  | some m =>
      rw [hdb] at h
      simp only [Option.some.injEq, Prod.mk.injEq] at h
      unfold MapDatabase.Get
      rw [← h.1, hdb]
      simp [mapLookup_mapInsert_ne m k k2 v hne]

/-- Witness for C10: setting key "a" does not disturb the (absent) key "b"
on a fresh store. -/
theorem set_frames_other_keys_witness :
    MapDatabase.Get { hashtable := some [("a", "v")] } "b" =
      NewMapDatabase.Get "b" :=
  set_frames_other_keys NewMapDatabase "a" "b" "v"
    { hashtable := some [("a", "v")] } none (by decide) rfl

end Godis
